import Mathlib

/-!
Shallow embedding of the analytical core of the Geospacial_metadata_extractor
repository (src/backend/analyzer.py, src/backend/risk_module.py,
src/backend/stats_module.py).

Modelling choices:
* Python floats are modelled as exact rationals (`ℚ`); `round(x, n)` is
  modelled as round-half-to-even on rationals (`roundHE`, `round2q`, `round4q`),
  matching CPython's rounding mode.
* The external distance libraries (`geopy.distance.geodesic` in analyzer.py and
  risk_module.py, and the trigonometric haversine helper inside stats_module.py,
  which is real-valued and not executable over ℚ) are taken as an explicit
  function parameter `Dist`; every theorem is proved for an arbitrary such
  function, and concrete instantiations are used for witnesses.
* `dateutil.parser.parse` is taken as a parameter `ParseFn : String → Option DT`
  where `DT` records the parsed instant (`stamp`, in seconds, used as the sort
  key and for time differences) and the `hour` attribute; `none` models a parse
  exception.
* A Python dict record is the structure `Point` with `Option` fields; `none`
  covers both a missing key and an explicit `None` value (both make direct
  indexing plus arithmetic raise, and both make `.get` return a falsy value).
* Python's `float("inf")` result of the velocity computation is the `RFloat`
  type (`fin q` or `inf`); `round(inf, 2) = inf` and `inf > 1000` hold in
  Python and are mirrored by `RFloat.round2` / `RFloat.gtQ`.
* An uncaught Python exception escaping an entry point is modelled by returning
  `Except.error`; a caught one (bare `except`) by the code's fallback value.
* The f-string `"Impossible velocity detected: {speed} km/h"` is modelled by
  the `Reason.impossibleVelocity` constructor carrying the (already rounded)
  speed that is interpolated into the message.
-/

/-- Decidable equality of `Except` results, so that concrete runs of the
entry points can be checked by evaluation. -/
instance {ε α : Type} [DecidableEq ε] [DecidableEq α] :
    DecidableEq (Except ε α) := fun a b =>
  match a, b with
  | .ok x, .ok y =>
    if h : x = y then .isTrue (by rw [h]) else .isFalse (by simp [h])
  | .error e, .error f =>
    if h : e = f then .isTrue (by rw [h]) else .isFalse (by simp [h])
  | .ok _, .error _ => .isFalse (by simp)
  | .error _, .ok _ => .isFalse (by simp)

set_option maxRecDepth 4000

namespace GeoMeta

/-- Round half to even (CPython `round` on a value with exact rational value):
`f` is the floor of `q` (Euclidean division of numerator by the positive
denominator) and `r / den` its fractional part. -/
def roundHE (q : ℚ) : ℤ :=
  let f := Int.ediv q.num q.den
  let r := Int.emod q.num q.den
  if 2 * r < (q.den : ℤ) then f
  else if (q.den : ℤ) < 2 * r then f + 1
  else if Int.emod f 2 = 0 then f else f + 1

/-- Python `round(x, 2)`. -/
def round2q (q : ℚ) : ℚ := (roundHE (q * 100) : ℚ) / 100

/-- Python `round(x, 4)`. -/
def round4q (q : ℚ) : ℚ := (roundHE (q * 10000) : ℚ) / 10000

/-- A Python float that is either finite or positive infinity. -/
inductive RFloat where
  | fin (q : ℚ)
  | inf
deriving DecidableEq

/-- `round(x, 2)` on a possibly infinite float: `round(float("inf"), 2)` is
`inf` in Python. -/
def RFloat.round2 : RFloat → RFloat
  | .fin q => .fin (round2q q)
  | .inf => .inf

/-- Comparison `x > c` for a possibly infinite float against a finite bound. -/
def RFloat.gtQ : RFloat → ℚ → Bool
  | .fin q, c => q > c
  | .inf, _ => true

/-- Result of `dateutil.parser.parse`: the instant in seconds (sort key /
subtraction) and the `hour` attribute (0..23). -/
structure DT where
  stamp : ℚ
  hour : ℕ
deriving DecidableEq

/-- One observation record (a Python dict). `none` = missing key or `None`. -/
structure Point where
  latitude : Option ℚ
  longitude : Option ℚ
  datetime : Option String
  landmark_name : Option String
deriving DecidableEq

/-- Python truthiness of `d.get("latitude")`: `None` and `0.0` are falsy. -/
def truthyNum : Option ℚ → Bool
  | none => false
  | some q => q != 0

/-- Python truthiness of `d.get("datetime")`: `None` and `""` are falsy. -/
def truthyStr : Option String → Bool
  | none => false
  | some s => s != ""

/-- The dict returned by `calculate_velocity` on success. -/
structure Metrics where
  distance_km : ℚ
  time_diff_hours : ℚ
  speed_kmh : RFloat
deriving DecidableEq

/-- Python `abs` on a (finite) float. -/
def absq (q : ℚ) : ℚ := if q < 0 then -q else q

/-- The `if time_diff_hours == 0: speed = inf else: speed = d / t` computation
of `calculate_velocity` (analyzer.py lines 21-24). -/
def speedOf (d t : ℚ) : RFloat := if t = 0 then .inf else .fin (d / t)

/-- External great-circle distance function over (latitude, longitude) pairs. -/
abbrev Dist := (ℚ × ℚ) → (ℚ × ℚ) → ℚ

/-- External timestamp parser; `none` models a raised parse exception. -/
abbrev ParseFn := String → Option DT

/-- analyzer.py `calculate_velocity`: on any exception inside the `try`
(missing/`None` coordinate, missing/unparseable datetime) the code returns an
error dict, modelled as `none`. -/
def calculate_velocity (gd : Dist) (parse : ParseFn) (p1 p2 : Point) :
    Option Metrics :=
  match p1.latitude, p1.longitude, p2.latitude, p2.longitude,
        p1.datetime.bind parse, p2.datetime.bind parse with
  | some la1, some lo1, some la2, some lo2, some t1, some t2 =>
    let distance_km := gd (la1, lo1) (la2, lo2)
    let time_diff_hours := absq (t2.stamp - t1.stamp) / 3600
    some ⟨round2q distance_km, round2q time_diff_hours,
          RFloat.round2 (speedOf distance_km time_diff_hours)⟩
  | _, _, _, _, _, _ => none

/-- The reason value attached to a flagged entry; `impossibleVelocity s` stands
for the Python f-string with the rounded speed `s` interpolated. -/
inductive Reason where
  | impossibleVelocity (speed_kmh : RFloat)
deriving DecidableEq

/-- One element of the `timeline` list built by `analyze_timeline`. -/
structure TimelineEntry where
  point : Point
  flagged : Bool
  reason : Option Reason
  movement_metrics : Option Metrics
deriving DecidableEq

/-- Body of the loop of `analyze_timeline` (analyzer.py lines 56-78) for one
point, given the previous sorted point when there is one. -/
def timelineStep (gd : Dist) (parse : ParseFn) (prev : Option Point)
    (cur : Point) : TimelineEntry :=
  match prev with
  | none => ⟨cur, false, none, none⟩
  | some pv =>
    match calculate_velocity gd parse pv cur with
    | none => ⟨cur, false, none, none⟩
    | some m =>
      if RFloat.gtQ m.speed_kmh 1000 then
        ⟨cur, true, some (.impossibleVelocity m.speed_kmh), some m⟩
      else
        ⟨cur, false, none, some m⟩

/-- The full analysis loop over the sorted list. -/
def buildTimeline (gd : Dist) (parse : ParseFn) :
    Option Point → List Point → List TimelineEntry
  | _, [] => []
  | prev, c :: rest =>
    timelineStep gd parse prev c :: buildTimeline gd parse (some c) rest

/-- Stable insertion keyed on a rational sort key: an element with an equal key
goes after the existing ones, as Python's stable `sorted` does. -/
def insertByKey {α : Type} (key : α → ℚ) (x : α) : List α → List α
  | [] => [x]
  | y :: ys => if key x < key y then x :: y :: ys else y :: insertByKey key x ys

/-- Stable sort keyed on a rational sort key (observationally equal to Python's
`sorted(l, key=...)`). -/
def sortByKey {α : Type} (key : α → ℚ) : List α → List α
  | [] => []
  | x :: xs => insertByKey key x (sortByKey key xs)

/-- analyzer.py lines 39-42: the truthiness filter on latitude, longitude and
datetime. -/
def tlValidPoints (points : List Point) : List Point :=
  points.filter fun p =>
    truthyNum p.latitude && truthyNum p.longitude && truthyStr p.datetime

/-- The sort key used by `sorted(..., key=lambda p: parse(p["datetime"]))`;
only evaluated on points whose datetime parses (guarded by the caller). -/
def sortKey (parse : ParseFn) (p : Point) : ℚ :=
  match p.datetime.bind parse with
  | some dt => dt.stamp
  | none => 0

/-- Result of `analyze_timeline`: either the success dict
`{"chronological_timeline": ..., "total_points_analyzed": ...}` or the error
dict `{"error": msg, "timeline": points}`. -/
inductive TLResult where
  | ok (chronological_timeline : List TimelineEntry) (total_points_analyzed : ℕ)
  | error (msg : String) (timeline : List Point)
deriving DecidableEq

/-- analyzer.py `analyze_timeline`: filter by truthiness, sort (the `sorted`
call raises iff some filtered point's datetime fails to parse, caught by the
bare `except` which returns the error dict carrying the original `points`),
then the analysis loop. -/
def analyze_timeline (gd : Dist) (parse : ParseFn) (points : List Point) :
    TLResult :=
  if (tlValidPoints points).all (fun p => (p.datetime.bind parse).isSome) then
    .ok (buildTimeline gd parse none
          (sortByKey (sortKey parse) (tlValidPoints points)))
      (tlValidPoints points).length
  else
    .error ("Date casting error") points

/-- The dict returned by `calculate_risk_score` on success. -/
structure RiskResult where
  risk_score : ℕ
  risk_level : String
deriving DecidableEq

/-- `loc.get("latitude") is not None and loc.get("longitude") is not None`. -/
def coordsPresent (p : Point) : Bool := p.latitude.isSome && p.longitude.isSome

/-- The raw (latitude, longitude) pair of a point, when both are present. -/
def coordOf (p : Point) : Option (ℚ × ℚ) :=
  match p.latitude, p.longitude with
  | some la, some lo => some (la, lo)
  | _, _ => none

/-- Consecutive pairs of a list (`for i in range(len(l) - 1): (l[i], l[i+1])`). -/
def consecPairs {α : Type} : List α → List (α × α)
  | a :: b :: rest => (a, b) :: consecPairs (b :: rest)
  | _ => []

/-- risk_module.py lines 23-29: sort the points having a truthy datetime by
parsed datetime; if any parse raises, the bare `except` falls back to the
original unfiltered list. -/
def riskSortedData (parse : ParseFn) (data : List Point) : List Point :=
  let withDt := data.filter fun p => truthyStr p.datetime
  if withDt.all (fun p => (p.datetime.bind parse).isSome) then
    sortByKey (sortKey parse) withDt
  else
    data

/-- risk_module.py line 32: keep only points with both coordinates present. -/
def riskValidData (parse : ParseFn) (data : List Point) : List Point :=
  (riskSortedData parse data).filter coordsPresent

/-- The list of consecutive geodesic distances over a list of points (all of
which have coordinates where this is used). -/
def pairDists (gd : Dist) (l : List Point) : List ℚ :=
  (consecPairs (l.filterMap coordOf)).map fun pr => gd pr.1 pr.2

/-- risk_module.py lines 35-39: `total_distance` accumulator. -/
def riskTotalDistance (gd : Dist) (parse : ParseFn) (data : List Point) : ℚ :=
  (pairDists gd (riskValidData parse data)).foldl (· + ·) 0

/-- risk_module.py lines 40-41: `max_jump` accumulator. -/
def riskMaxJump (gd : Dist) (parse : ParseFn) (data : List Point) : ℚ :=
  (pairDists gd (riskValidData parse data)).foldl
    (fun m x => if x > m then x else m) 0

/-- `dt.hour >= 22 or dt.hour < 5`. -/
def nightHour (dt : DT) : Bool := 22 ≤ dt.hour || dt.hour < 5

/-- risk_module.py lines 57-63: count points whose datetime parses to a
nighttime hour; a missing datetime (KeyError) or failed parse is caught by the
inner `except` and skipped. -/
def nighttimeCount (parse : ParseFn) (data : List Point) : ℕ :=
  data.countP fun p =>
    match p.datetime.bind parse with
    | some dt => nightHour dt
    | none => false

/-- risk_module.py line 51: build the rounded coordinate list over ALL input
points; raises (returns `none`) at the first point with a missing or `None`
latitude or longitude. -/
def allCoordsBuckets : List Point → Option (List (ℚ × ℚ))
  | [] => some []
  | p :: rest =>
    match coordOf p with
    | none => none
    | some c =>
      (allCoordsBuckets rest).map fun bs =>
        (round4q c.1, round4q c.2) :: bs

/-- The rounded coordinate buckets of the points that have coordinates (the
value risk_module.py line 51 computes whenever it does not raise). -/
def bucketsOf (data : List Point) : List (ℚ × ℚ) :=
  data.filterMap fun p =>
    (coordOf p).map fun c => (round4q c.1, round4q c.2)

/-- risk_module.py lines 43-44. -/
def distBonus (gd : Dist) (parse : ParseFn) (data : List Point) : ℕ :=
  if riskTotalDistance gd parse data > 300 then 20 else 0

/-- risk_module.py lines 46-47. -/
def jumpBonus (gd : Dist) (parse : ParseFn) (data : List Point) : ℕ :=
  if riskMaxJump gd parse data > 200 then 15 else 0

/-- risk_module.py lines 52-54: `any(count > 3 for count in counts.values())`. -/
def repeatBonus (buckets : List (ℚ × ℚ)) : ℕ :=
  if buckets.any (fun c => buckets.count c > 3) then 15 else 0

/-- risk_module.py lines 65-66: nighttime ratio strictly above one half. -/
def nightBonus (parse : ParseFn) (data : List Point) : ℕ :=
  if 0 < data.length ∧ 2 * nighttimeCount parse data > data.length then 20
  else 0

/-- The sum of the three rule contributions other than nighttime activity
(long-range travel, sudden jump, repeated visits), on the buckets that
risk_module.py line 51 computes when it does not raise. -/
def riskOtherScore (gd : Dist) (parse : ParseFn) (data : List Point) : ℕ :=
  distBonus gd parse data + jumpBonus gd parse data +
    repeatBonus (bucketsOf data)

/-- risk_module.py lines 69-73. -/
def riskLevelOf (s : ℕ) : String :=
  if 40 ≤ s then ("High") else if 20 ≤ s then ("Medium") else ("Low")

/-- risk_module.py `calculate_risk_score`; `Except.error` models the uncaught
KeyError/TypeError raised at line 51 when some input point lacks a numeric
latitude or longitude. -/
def calculate_risk_score (gd : Dist) (parse : ParseFn) (data : List Point) :
    Except String RiskResult :=
  if data.isEmpty then .ok ⟨0, "Low"⟩
  else
    match allCoordsBuckets data with
    | none => .error ("KeyError: latitude or longitude")
    | some buckets =>
      .ok ⟨distBonus gd parse data + jumpBonus gd parse data +
             repeatBonus buckets + nightBonus parse data,
           riskLevelOf (distBonus gd parse data + jumpBonus gd parse data +
             repeatBonus buckets + nightBonus parse data)⟩

/-- The `most_visited_location` label before the optional visit-count suffix:
either a truthy landmark name or the `"Lat: {lat}, Lng: {lng}"` fallback
(with the bucket's rounded coordinates interpolated). -/
inductive LocLabel where
  | name (s : String)
  | coord (lat lng : ℚ)
deriving DecidableEq

/-- The `most_visited_location` string: `"None"` when there are no coordinate
bearing points, else the label plus, when `1 < count`, the
`" ({count} visits)"` suffix. -/
inductive MostVisited where
  | noneLoc
  | visited (label : LocLabel) (count : ℕ)
deriving DecidableEq

/-- The dict returned by `generate_travel_statistics` on success. -/
structure StatsResult where
  total_distance_km : ℚ
  unique_locations_count : ℕ
  most_visited_location : MostVisited
  average_movement_km : ℚ
  total_movements : ℕ
deriving DecidableEq

/-- stats_module.py line 32: points with both coordinates present. -/
def statsValidPoints (data : List Point) : List Point :=
  data.filter coordsPresent

/-- The raw coordinate pairs of the coordinate-bearing points, in input order. -/
def statsRawCoords (data : List Point) : List (ℚ × ℚ) :=
  (statsValidPoints data).filterMap coordOf

/-- stats_module.py lines 34-38: sum of consecutive haversine distances over
the raw (unrounded) coordinates of the coordinate-bearing points. -/
def statsTotalDistance (hav : Dist) (data : List Point) : ℚ :=
  ((consecPairs (statsRawCoords data)).map fun pr => hav pr.1 pr.2).foldl
    (· + ·) 0

/-- stats_module.py line 42: 4-decimal rounded buckets of the valid points. -/
def statsBuckets (data : List Point) : List (ℚ × ℚ) :=
  (statsRawCoords data).map fun c => (round4q c.1, round4q c.2)

/-- Helper for `distinctFirst`: drop elements already seen. -/
def distinctFirstAux (seen : List (ℚ × ℚ)) : List (ℚ × ℚ) → List (ℚ × ℚ)
  | [] => []
  | x :: xs =>
    if x ∈ seen then distinctFirstAux seen xs
    else x :: distinctFirstAux (x :: seen) xs

/-- Distinct elements of a list keeping first occurrences in order (the key
order of a Python `Counter`/dict built by insertion). -/
def distinctFirst (l : List (ℚ × ℚ)) : List (ℚ × ℚ) :=
  distinctFirstAux [] l

/-- `Counter(l).most_common(1)[0]`: the element with the largest multiplicity,
ties broken by first occurrence (CPython's `nlargest` over insertion-ordered
items is stable); `none` iff the list is empty. -/
def mostCommon (l : List (ℚ × ℚ)) : Option ((ℚ × ℚ) × ℕ) :=
  (distinctFirst l).foldl
    (fun acc c =>
      match acc with
      | none => some (c, l.count c)
      | some (b, n) => if l.count c > n then some (c, l.count c) else some (b, n))
    none

/-- stats_module.py lines 50-54: scan the ORIGINAL unfiltered list for the
first point matching the winning bucket that carries a truthy landmark name.
Direct indexing `loc["latitude"]` / `loc["longitude"]` raises on a missing or
`None` value (`Except.error`); Python's `and` short-circuits, so longitude is
only touched when the latitude matches. -/
def findLandmark (data : List Point) (top : ℚ × ℚ) :
    Except String (Option String) :=
  match data with
  | [] => .ok none
  | loc :: rest =>
    match loc.latitude with
    | none => .error ("KeyError: latitude")
    | some la =>
      if round4q la = top.1 then
        match loc.longitude with
        | none => .error ("KeyError: longitude")
        | some lo =>
          if round4q lo = top.2 then
            match loc.landmark_name with
            | some nm => if nm ≠ "" then .ok (some nm) else findLandmark rest top
            | none => findLandmark rest top
          else findLandmark rest top
      else findLandmark rest top

/-- stats_module.py line 62: `avg_movement = total_distance / movements if
movements > 0 else 0`, with `movements = len(valid_points) - 1` (the loop runs
`max(0, len - 1)` times). -/
def statsAvg (hav : Dist) (data : List Point) : ℚ :=
  if 0 < (statsValidPoints data).length - 1 then
    statsTotalDistance hav data / (((statsValidPoints data).length - 1 : ℕ) : ℚ)
  else 0

/-- stats_module.py `generate_travel_statistics`; `Except.error` models the
uncaught KeyError/TypeError raised inside the landmark-search loop. -/
def generate_travel_statistics (hav : Dist) (data : List Point) :
    Except String StatsResult :=
  if data.isEmpty then .ok ⟨0, 0, .noneLoc, 0, 0⟩
  else
    match mostCommon (statsBuckets data) with
    | none =>
      .ok ⟨round2q (statsTotalDistance hav data),
           (distinctFirst (statsBuckets data)).length, .noneLoc,
           round2q (statsAvg hav data), (statsValidPoints data).length - 1⟩
    | some (top, count) =>
      match findLandmark data top with
      | .error e => .error e
      | .ok nm =>
        .ok ⟨round2q (statsTotalDistance hav data),
             (distinctFirst (statsBuckets data)).length,
             .visited
               (match nm with
                | some s => LocLabel.name s
                | none => LocLabel.coord top.1 top.2)
               count,
             round2q (statsAvg hav data), (statsValidPoints data).length - 1⟩

/-! Concrete instantiations of the external collaborators, used by the
counterexamples and witnesses. `parse0` behaves like `dateutil.parser.parse`
on the concrete strings that appear below (and fails on anything else). -/

/-- Concrete timestamp table mirroring `dateutil.parser.parse` on the sample
strings used in the witnesses. -/
def parse0 : ParseFn := fun s =>
  if s = "00:00:00" then some ⟨0, 0⟩
  else if s = "01:00:00" then some ⟨3600, 1⟩
  else if s = "02:00:00" then some ⟨7200, 2⟩
  else if s = "23:00:00" then some ⟨82800, 23⟩
  else none

/-- Distance stub for pairs of identical coordinates (geodesic distance 0). -/
def gd0 : Dist := fun _ _ => 0

/-- Haversine stub (only ever applied to identical coordinate pairs below). -/
def hav0 : Dist := fun _ _ => 0

/-- Distance stub: 2000 km between any two points, so one hour apart implies
a physically impossible 2000 km/h. -/
def gdA : Dist := fun _ _ => 2000

/-- Distance stub: 1000.001 km, whose implied speed over one hour exceeds
1000 km/h but rounds to 1000.00. -/
def gdB : Dist := fun _ _ => 1000001 / 1000

/-- Sample point at (10, 10), midnight. -/
def pA : Point := ⟨some 10, some 10, some ("00:00:00"), none⟩

/-- Sample point at (10, 11), one hour after midnight. -/
def pB : Point := ⟨some 10, some 11, some ("01:00:00"), none⟩

/-- Sample point at (20, 20), two o'clock. -/
def pC : Point := ⟨some 20, some 20, some ("02:00:00"), none⟩

/-- Sample point with no coordinates at all. -/
def pNoCoord : Point := ⟨none, none, some ("01:00:00"), none⟩

/-- Sample point sitting exactly on the equator (latitude 0.0). -/
def pZeroLat : Point := ⟨some 0, some 10, some ("00:00:00"), none⟩

/-- Sample point whose datetime string does not parse. -/
def pBadTime : Point := ⟨some 10, some 10, some ("not a date"), none⟩

/-- Sample point observed at 23:00 (a nighttime hour). -/
def pNight : Point := ⟨some 10, some 10, some ("23:00:00"), none⟩

/-- The statistics result for the two-point sample run with the zero-distance
haversine stub: two buckets, one movement of distance 0, most visited bucket
is the first one with a single visit. -/
def stR : StatsResult := ⟨0, 2, .visited (.coord 10 10) 1, 0, 1⟩

/-- First timeline entry of the flagging scenario. -/
def eA0 : TimelineEntry := ⟨pA, false, none, none⟩

/-- Second timeline entry of the flagging scenario: 2000 km in one hour is
2000 km/h, above the 1000 km/h threshold. -/
def eA1 : TimelineEntry :=
  ⟨pB, true, some (.impossibleVelocity (.fin 2000)),
   some ⟨2000, 1, .fin 2000⟩⟩

/-! Helper lemmas shared by the claim theorems. -/

/-- Evaluation of `round(0, 2)`. -/
theorem round2q_zero : round2q 0 = 0 := by with_unfolding_all decide

/-- `calculate_velocity` on two points whose fields are all present computes
the rounded geodesic distance, absolute time difference in hours, and speed. -/
theorem velocity_eq (gd : Dist) (parse : ParseFn) (p1 p2 : Point)
    (la1 lo1 la2 lo2 : ℚ) (t1 t2 : DT)
    (h1 : p1.latitude = some la1) (h2 : p1.longitude = some lo1)
    (h3 : p2.latitude = some la2) (h4 : p2.longitude = some lo2)
    (h5 : p1.datetime.bind parse = some t1)
    (h6 : p2.datetime.bind parse = some t2) :
    calculate_velocity gd parse p1 p2 =
      some ⟨round2q (gd (la1, lo1) (la2, lo2)),
            round2q (absq (t2.stamp - t1.stamp) / 3600),
            RFloat.round2 (speedOf (gd (la1, lo1) (la2, lo2))
              (absq (t2.stamp - t1.stamp) / 3600))⟩ := by
  unfold calculate_velocity
  rw [h1, h2, h3, h4, h5, h6]

/-- Elimination of a successful `analyze_timeline` run: the timeline is the
analysis loop over the sorted filtered points. -/
theorem analyze_timeline_ok_eq (gd : Dist) (parse : ParseFn)
    (points : List Point) (tl : List TimelineEntry) (n : ℕ)
    (h : analyze_timeline gd parse points = .ok tl n) :
    tl = buildTimeline gd parse none
        (sortByKey (sortKey parse) (tlValidPoints points)) ∧
    n = (tlValidPoints points).length := by
  unfold analyze_timeline at h
  split at h
  · injection h with ha hb
    exact ⟨ha.symm, hb.symm⟩
  · exact TLResult.noConfusion h

/-- Every entry of the analysis loop is a `timelineStep` of some previous
point option and current point. -/
theorem mem_buildTimeline (gd : Dist) (parse : ParseFn) :
    ∀ (l : List Point) (prev : Option Point) (e : TimelineEntry),
      e ∈ buildTimeline gd parse prev l →
      ∃ po c, e = timelineStep gd parse po c := by
  intro l
  induction l with
  | nil =>
    intro prev e he
    simp [buildTimeline] at he
  | cons c rest ih =>
    intro prev e he
    simp only [buildTimeline, List.mem_cons] at he
    rcases he with he | he
    · exact ⟨prev, c, he⟩
    · exact ih (some c) e he

/-- Flagging discipline of one loop iteration: an entry that carries metrics
is flagged exactly when the (rounded) speed exceeds 1000, its reason is the
impossible-velocity message with that speed, and an entry without metrics is
never flagged. -/
theorem timelineStep_flag (gd : Dist) (parse : ParseFn) (po : Option Point)
    (c : Point) :
    (∀ m, (timelineStep gd parse po c).movement_metrics = some m →
      ((timelineStep gd parse po c).flagged = RFloat.gtQ m.speed_kmh 1000 ∧
       ((timelineStep gd parse po c).flagged = true →
         (timelineStep gd parse po c).reason =
           some (.impossibleVelocity m.speed_kmh)) ∧
       ((timelineStep gd parse po c).flagged = false →
         (timelineStep gd parse po c).reason = none))) ∧
    ((timelineStep gd parse po c).movement_metrics = none →
      (timelineStep gd parse po c).flagged = false ∧
      (timelineStep gd parse po c).reason = none) := by
  cases po with
  | none => simp [timelineStep]
  | some pv =>
    cases hcv : calculate_velocity gd parse pv c with
    | none => simp [timelineStep, hcv]
    | some m0 =>
      by_cases hgt : RFloat.gtQ m0.speed_kmh 1000 = true
      · constructor
        · intro m hm
          simp only [timelineStep, hcv, hgt, if_true] at hm ⊢
          obtain rfl : m0 = m := Option.some.inj hm
          simp [hgt]
        · intro hm
          simp [timelineStep, hcv, hgt] at hm
      · constructor
        · intro m hm
          simp only [timelineStep, hcv, hgt, if_false, Bool.false_eq_true] at hm ⊢
          obtain rfl : m0 = m := Option.some.inj hm
          simp [Bool.not_eq_true] at hgt
          simp [hgt]
        · intro hm
          simp [timelineStep, hcv, hgt] at hm

/-! Claim theorems. -/

/-- Claim C1: the claim that `calculate_risk_score` and `generate_travel_statistics`
never raise fails on the code: on an input containing one coordinate-bearing
point and one point with no latitude, risk_module.py line 51
(`round(loc["latitude"], 4)` over ALL input points) and the landmark-search
loop of stats_module.py lines 50-54 both raise a KeyError that escapes to the
caller. -/
theorem risk_and_stats_raise_on_missing_coordinates :
    calculate_risk_score gd0 parse0 [pA, pNoCoord] =
      .error ("KeyError: latitude or longitude") ∧
    generate_travel_statistics hav0 [pA, pNoCoord] =
      .error ("KeyError: latitude") :=
  ⟨by with_unfolding_all decide, by with_unfolding_all decide⟩

/-- Claim C2 counterexample: on two identical points observed at the same instant
(distance 0, time difference 0), `calculate_velocity` returns speed infinity,
not the speed 0 the claim demands for the both-zero case. -/
theorem velocity_zero_time_zero_distance_gives_inf :
    calculate_velocity gd0 parse0 pA pA = some ⟨0, 0, RFloat.inf⟩ ∧
    RFloat.inf ≠ RFloat.fin 0 :=
  ⟨by with_unfolding_all decide, by decide⟩

/-- Claim C2 (amended): for coordinate- and time-complete points the returned
metrics are the rounded distance, rounded absolute time difference and rounded
speed, where the speed is positive infinity whenever the (exact) time
difference is zero — regardless of the distance, including distance zero —
and the exact quotient distance/time otherwise. -/
theorem velocity_speed_rule (gd : Dist) (parse : ParseFn) (p1 p2 : Point)
    (la1 lo1 la2 lo2 : ℚ) (t1 t2 : DT)
    (h1 : p1.latitude = some la1) (h2 : p1.longitude = some lo1)
    (h3 : p2.latitude = some la2) (h4 : p2.longitude = some lo2)
    (h5 : p1.datetime.bind parse = some t1)
    (h6 : p2.datetime.bind parse = some t2) :
    calculate_velocity gd parse p1 p2 =
      some ⟨round2q (gd (la1, lo1) (la2, lo2)),
            round2q (absq (t2.stamp - t1.stamp) / 3600),
            RFloat.round2 (speedOf (gd (la1, lo1) (la2, lo2))
              (absq (t2.stamp - t1.stamp) / 3600))⟩ ∧
    (∀ d : ℚ, speedOf d 0 = RFloat.inf) ∧
    (∀ d t : ℚ, t ≠ 0 → speedOf d t = RFloat.fin (d / t)) :=
  ⟨velocity_eq gd parse p1 p2 la1 lo1 la2 lo2 t1 t2 h1 h2 h3 h4 h5 h6,
   fun d => by simp [speedOf],
   fun d t ht => by simp [speedOf, ht]⟩

/-- Claim C2 witness: the amended rule instantiated on the two sample points one
hour apart. -/
theorem velocity_speed_rule_witness :
    pA.latitude = some 10 ∧ pA.datetime.bind parse0 = some ⟨0, 0⟩ ∧
    (calculate_velocity gdA parse0 pA pB =
      some ⟨round2q (gdA (10, 10) (10, 11)),
            round2q (absq ((⟨3600, 1⟩ : DT).stamp - (⟨0, 0⟩ : DT).stamp) / 3600),
            RFloat.round2 (speedOf (gdA (10, 10) (10, 11))
              (absq ((⟨3600, 1⟩ : DT).stamp - (⟨0, 0⟩ : DT).stamp) / 3600))⟩ ∧
     (∀ d : ℚ, speedOf d 0 = RFloat.inf) ∧
     (∀ d t : ℚ, t ≠ 0 → speedOf d t = RFloat.fin (d / t))) :=
  ⟨rfl, rfl,
   velocity_speed_rule gdA parse0 pA pB 10 10 10 11 ⟨0, 0⟩ ⟨3600, 1⟩
     rfl rfl rfl rfl rfl rfl⟩

/-- Claim C3: the claim that the timeline holds one entry per coordinate-valid and
time-valid point fails on the code: a point at latitude 0.0 (equator) with a
parseable timestamp is coordinate-valid per the spec, yet the truthiness
filter `p.get("latitude") and ...` of analyzer.py line 41 drops it, returning
an empty timeline. -/
theorem timeline_drops_zero_latitude_point :
    analyze_timeline gd0 parse0 [pZeroLat] = .ok [] 0 := by
  with_unfolding_all decide

/-- Claim C4: in any successful `analyze_timeline` run, an entry carrying movement
metrics is flagged exactly when its (rounded) `speed_kmh` field exceeds 1000
strictly — a speed of exactly 1000 is not flagged — and a flagged entry's
reason is the impossible-velocity message carrying that same rounded speed;
entries without metrics are never flagged. -/
theorem flag_iff_rounded_speed_above_threshold
    (gd : Dist) (parse : ParseFn) (points : List Point)
    (tl : List TimelineEntry) (n : ℕ)
    (h : analyze_timeline gd parse points = .ok tl n) :
    (∀ e ∈ tl,
      (∀ m, e.movement_metrics = some m →
        (e.flagged = RFloat.gtQ m.speed_kmh 1000 ∧
         (e.flagged = true → e.reason = some (.impossibleVelocity m.speed_kmh)) ∧
         (e.flagged = false → e.reason = none))) ∧
      (e.movement_metrics = none → e.flagged = false)) ∧
    RFloat.gtQ (.fin 1000) 1000 = false := by
  constructor
  · intro e he
    obtain ⟨htl, -⟩ := analyze_timeline_ok_eq gd parse points tl n h
    subst htl
    obtain ⟨po, c, rfl⟩ := mem_buildTimeline gd parse _ _ e he
    obtain ⟨hm, hn⟩ := timelineStep_flag gd parse po c
    exact ⟨hm, fun hnone => (hn hnone).1⟩
  · simp [RFloat.gtQ]

/-- Claim C4 witness: the sample two-point run, whose second entry travels 2000 km
in one hour and is flagged. -/
theorem flag_iff_rounded_speed_above_threshold_witness :
    analyze_timeline gdA parse0 [pA, pB] = .ok [eA0, eA1] 2 ∧
    ((∀ e ∈ [eA0, eA1],
      (∀ m, e.movement_metrics = some m →
        (e.flagged = RFloat.gtQ m.speed_kmh 1000 ∧
         (e.flagged = true → e.reason = some (.impossibleVelocity m.speed_kmh)) ∧
         (e.flagged = false → e.reason = none))) ∧
      (e.movement_metrics = none → e.flagged = false)) ∧
     RFloat.gtQ (.fin 1000) 1000 = false) :=
  have h : analyze_timeline gdA parse0 [pA, pB] = .ok [eA0, eA1] 2 := by
    with_unfolding_all decide
  ⟨h, flag_iff_rounded_speed_above_threshold gdA parse0 [pA, pB] [eA0, eA1] 2 h⟩

/-- Claim C7: whenever the chronological sort of `analyze_timeline` fails (some
filtered point's datetime does not parse), the function returns the
distinguished error result that carries the original, unsorted input
collection, rather than raising or returning a partial timeline. -/
theorem sort_failure_returns_error_with_original_points
    (gd : Dist) (parse : ParseFn) (points : List Point)
    (h : (tlValidPoints points).all
      (fun p => (p.datetime.bind parse).isSome) = false) :
    analyze_timeline gd parse points = .error ("Date casting error") points := by
  simp [analyze_timeline, h]

/-- Claim C7 witness: a point whose datetime string does not parse makes the sort
fail and the error result carry the original list. -/
theorem sort_failure_returns_error_with_original_points_witness :
    (tlValidPoints [pBadTime]).all
      (fun p => (p.datetime.bind parse0).isSome) = false ∧
    analyze_timeline gd0 parse0 [pBadTime] =
      .error ("Date casting error") [pBadTime] :=
  have h : (tlValidPoints [pBadTime]).all
      (fun p => (p.datetime.bind parse0).isSome) = false := by
    with_unfolding_all decide
  ⟨h, sort_failure_returns_error_with_original_points gd0 parse0 [pBadTime] h⟩

/-- Claim C9: in any successful `analyze_timeline` run with a non-empty timeline,
the first entry carries no movement metrics, is not flagged and has no
reason. -/
theorem first_entry_unflagged (gd : Dist) (parse : ParseFn)
    (points : List Point) (e : TimelineEntry) (rest : List TimelineEntry)
    (n : ℕ) (h : analyze_timeline gd parse points = .ok (e :: rest) n) :
    e.movement_metrics = none ∧ e.flagged = false ∧ e.reason = none := by
  obtain ⟨htl, -⟩ := analyze_timeline_ok_eq gd parse points (e :: rest) n h
  cases hs : sortByKey (sortKey parse) (tlValidPoints points) with
  | nil => rw [hs] at htl; simp [buildTimeline] at htl
  | cons c cs =>
    rw [hs] at htl
    simp only [buildTimeline] at htl
    injection htl with h1 h2
    subst h1
    simp [timelineStep]

/-- Claim C9 witness: a one-point run whose single (first) entry is unflagged and
metric-free. -/
theorem first_entry_unflagged_witness :
    analyze_timeline gd0 parse0 [pA] = .ok [eA0] 1 ∧
    (eA0.movement_metrics = none ∧ eA0.flagged = false ∧ eA0.reason = none) :=
  have h : analyze_timeline gd0 parse0 [pA] = .ok [eA0] 1 := by
    with_unfolding_all decide
  ⟨h, first_entry_unflagged gd0 parse0 [pA] eA0 [] 1 h⟩

/-- A successful line 51 computation yields exactly the rounded buckets of the
coordinate-bearing points (and since it succeeded, of all points). -/
theorem allCoordsBuckets_eq_some :
    ∀ (data : List Point) (b : List (ℚ × ℚ)),
      allCoordsBuckets data = some b → b = bucketsOf data := by
  intro data
  induction data with
  | nil =>
    intro b hb
    simp only [allCoordsBuckets, Option.some.injEq] at hb
    simp [bucketsOf, ← hb]
  | cons p rest ih =>
    intro b hb
    simp only [allCoordsBuckets] at hb
    cases hc : coordOf p with
    | none => rw [hc] at hb; exact Option.noConfusion hb
    | some c =>
      rw [hc] at hb
      cases hr : allCoordsBuckets rest with
      | none => rw [hr] at hb; exact Option.noConfusion hb
      | some bs =>
        rw [hr] at hb
        simp only [Option.map_some', Option.some.injEq] at hb
        have hbs := ih bs hr
        subst hbs
        simp [bucketsOf, List.filterMap_cons, hc, ← hb]

/-- Elimination of a successful `calculate_risk_score` run: the score is the
sum of the four rule contributions and the level is derived from the score. -/
theorem risk_ok_eq (gd : Dist) (parse : ParseFn) (data : List Point)
    (r : RiskResult) (h : calculate_risk_score gd parse data = .ok r) :
    r.risk_score = riskOtherScore gd parse data + nightBonus parse data ∧
    r.risk_level = riskLevelOf r.risk_score := by
  unfold calculate_risk_score at h
  split at h
  · next hemp =>
    have hd : data = [] := List.isEmpty_iff.mp hemp
    subst hd
    injection h with h'
    subst h'
    constructor
    · rfl
    · rfl
  · next hnemp =>
    cases hb : allCoordsBuckets data with
    | none => rw [hb] at h; exact Except.noConfusion h
    | some buckets =>
      rw [hb] at h
      injection h with h'
      subst h'
      have hbe : buckets = bucketsOf data := allCoordsBuckets_eq_some data buckets hb
      subst hbe
      constructor
      · show _ = riskOtherScore gd parse data + nightBonus parse data
        unfold riskOtherScore
        rfl
      · rfl

/-- Claim C5: whenever `calculate_risk_score` returns, the nighttime-activity rule
contributes exactly 20 points precisely when the number of points with a
parseable timestamp in a nighttime hour, doubled, strictly exceeds the total
number of input points (the ratio is strictly above one half, unparseable or
missing timestamps counting in the denominator only). -/
theorem nighttime_rule_contribution (gd : Dist) (parse : ParseFn)
    (data : List Point) (r : RiskResult)
    (h : calculate_risk_score gd parse data = .ok r) :
    (2 * nighttimeCount parse data > data.length →
      r.risk_score = riskOtherScore gd parse data + 20) ∧
    (2 * nighttimeCount parse data ≤ data.length →
      r.risk_score = riskOtherScore gd parse data) := by
  obtain ⟨hs, -⟩ := risk_ok_eq gd parse data r h
  have hcount : nighttimeCount parse data ≤ data.length :=
    List.countP_le_length _
  constructor
  · intro hgt
    rw [hs]
    have hlen : 0 < data.length := by omega
    unfold nightBonus
    rw [if_pos ⟨hlen, hgt⟩]
  · intro hle
    rw [hs]
    unfold nightBonus
    rw [if_neg]
    · exact Nat.add_zero _
    · rintro ⟨-, hgt⟩
      omega

/-- Claim C5 witness: a single nighttime point makes the ratio 1 > 1/2, so the rule
fires and the score is 20. -/
theorem nighttime_rule_contribution_witness :
    calculate_risk_score gd0 parse0 [pNight] = .ok ⟨20, "Medium"⟩ ∧
    ((2 * nighttimeCount parse0 [pNight] > [pNight].length →
      (⟨20, "Medium"⟩ : RiskResult).risk_score =
        riskOtherScore gd0 parse0 [pNight] + 20) ∧
     (2 * nighttimeCount parse0 [pNight] ≤ [pNight].length →
      (⟨20, "Medium"⟩ : RiskResult).risk_score =
        riskOtherScore gd0 parse0 [pNight])) :=
  have h : calculate_risk_score gd0 parse0 [pNight] = .ok ⟨20, "Medium"⟩ := by
    with_unfolding_all decide
  ⟨h, nighttime_rule_contribution gd0 parse0 [pNight] ⟨20, "Medium"⟩ h⟩

/-- Claim C6: any returned risk score is a sum of a subset of the four fixed rule
contributions 20, 15, 15, 20 (hence at most 70), the risk level follows the
fixed thresholds (at least 40 High, at least 20 but below 40 Medium,
below 20 Low), and empty input yields score 0 and level Low. -/
theorem risk_score_structure (gd : Dist) (parse : ParseFn) :
    (∀ data r, calculate_risk_score gd parse data = .ok r →
      (∃ b1 b2 b3 b4 : Bool,
        r.risk_score = (if b1 then 20 else 0) + (if b2 then 15 else 0) +
          (if b3 then 15 else 0) + (if b4 then 20 else 0)) ∧
      r.risk_score ≤ 70 ∧
      (40 ≤ r.risk_score → r.risk_level = "High") ∧
      (20 ≤ r.risk_score → r.risk_score < 40 → r.risk_level = "Medium") ∧
      (r.risk_score < 20 → r.risk_level = "Low")) ∧
    calculate_risk_score gd parse [] = .ok ⟨0, "Low"⟩ := by
  constructor
  · intro data r h
    obtain ⟨hs, hl⟩ := risk_ok_eq gd parse data r h
    have hdecomp : ∃ b1 b2 b3 b4 : Bool,
        r.risk_score = (if b1 then 20 else 0) + (if b2 then 15 else 0) +
          (if b3 then 15 else 0) + (if b4 then 20 else 0) := by
      rw [hs]
      unfold riskOtherScore distBonus jumpBonus repeatBonus nightBonus
      refine ⟨decide (riskTotalDistance gd parse data > 300),
              decide (riskMaxJump gd parse data > 200),
              (bucketsOf data).any (fun c => (bucketsOf data).count c > 3),
              decide (0 < data.length ∧
                2 * nighttimeCount parse data > data.length), ?_⟩
      by_cases c1 : riskTotalDistance gd parse data > 300 <;>
        by_cases c2 : riskMaxJump gd parse data > 200 <;>
        by_cases c3 : ((bucketsOf data).any
          (fun c => (bucketsOf data).count c > 3)) = true <;>
        by_cases c4 : (0 < data.length ∧
          2 * nighttimeCount parse data > data.length) <;>
        simp [c1, c2, c3, c4]
    refine ⟨hdecomp, ?_, ?_, ?_, ?_⟩
    · obtain ⟨b1, b2, b3, b4, he⟩ := hdecomp
      rw [he]
      cases b1 <;> cases b2 <;> cases b3 <;> cases b4 <;> norm_num
    · intro h40
      rw [hl]
      unfold riskLevelOf
      rw [if_pos h40]
    · intro h20 h40
      rw [hl]
      unfold riskLevelOf
      rw [if_neg (by omega), if_pos h20]
    · intro hlt
      rw [hl]
      unfold riskLevelOf
      rw [if_neg (by omega), if_neg (by omega)]
  · rfl

/-- Claim C6 witness: the single-nighttime-point run returns score 20, which is the
sum 0 + 0 + 0 + 20 and maps to level Medium. -/
theorem risk_score_structure_witness :
    calculate_risk_score gd0 parse0 [pNight] = .ok ⟨20, "Medium"⟩ ∧
    ((∃ b1 b2 b3 b4 : Bool,
        (⟨20, "Medium"⟩ : RiskResult).risk_score =
          (if b1 then 20 else 0) + (if b2 then 15 else 0) +
          (if b3 then 15 else 0) + (if b4 then 20 else 0)) ∧
     (⟨20, "Medium"⟩ : RiskResult).risk_score ≤ 70 ∧
     (40 ≤ (⟨20, "Medium"⟩ : RiskResult).risk_score →
       (⟨20, "Medium"⟩ : RiskResult).risk_level = "High") ∧
     (20 ≤ (⟨20, "Medium"⟩ : RiskResult).risk_score →
       (⟨20, "Medium"⟩ : RiskResult).risk_score < 40 →
       (⟨20, "Medium"⟩ : RiskResult).risk_level = "Medium") ∧
     ((⟨20, "Medium"⟩ : RiskResult).risk_score < 20 →
       (⟨20, "Medium"⟩ : RiskResult).risk_level = "Low")) :=
  have h : calculate_risk_score gd0 parse0 [pNight] = .ok ⟨20, "Medium"⟩ := by
    with_unfolding_all decide
  ⟨h, (risk_score_structure gd0 parse0).1 [pNight] ⟨20, "Medium"⟩ h⟩

/-- Elimination of a successful `generate_travel_statistics` run: the
movement count, total distance and average fields in terms of the embedded
accumulators. -/
theorem stats_ok_eq (hav : Dist) (data : List Point) (r : StatsResult)
    (h : generate_travel_statistics hav data = .ok r) :
    r.total_movements = (statsValidPoints data).length - 1 ∧
    r.total_distance_km = round2q (statsTotalDistance hav data) ∧
    r.average_movement_km = round2q (statsAvg hav data) := by
  unfold generate_travel_statistics at h
  split at h
  · next hemp =>
    have hd : data = [] := List.isEmpty_iff.mp hemp
    subst hd
    injection h with h'
    subst h'
    refine ⟨rfl, ?_, ?_⟩
    · show (0 : ℚ) = round2q (statsTotalDistance hav [])
      have h0 : statsTotalDistance hav [] = 0 := rfl
      rw [h0, round2q_zero]
    · show (0 : ℚ) = round2q (statsAvg hav [])
      have h0 : statsAvg hav [] = 0 := rfl
      rw [h0, round2q_zero]
  · split at h
    · injection h with h'
      subst h'
      exact ⟨rfl, rfl, rfl⟩
    · split at h
      · exact Except.noConfusion h
      · injection h with h'
        subst h'
        exact ⟨rfl, rfl, rfl⟩

/-- Claim C8: whenever `generate_travel_statistics` returns, `total_movements` is
`max(0, k - 1)` for `k` the number of coordinate-valid input points, and the
returned `average_movement_km` is the (2-decimal rounded) quotient of the
accumulated total distance by `total_movements` when movements exist, and 0
otherwise; the returned `total_distance_km` is the same accumulator rounded. -/
theorem stats_movements_and_average (hav : Dist) (data : List Point)
    (r : StatsResult) (h : generate_travel_statistics hav data = .ok r) :
    (r.total_movements : ℤ) =
      max 0 (((statsValidPoints data).length : ℤ) - 1) ∧
    (0 < r.total_movements →
      r.average_movement_km =
        round2q (statsTotalDistance hav data / (r.total_movements : ℚ))) ∧
    (r.total_movements = 0 → r.average_movement_km = 0) ∧
    r.total_distance_km = round2q (statsTotalDistance hav data) := by
  obtain ⟨hm, hd, ha⟩ := stats_ok_eq hav data r h
  refine ⟨?_, ?_, ?_, hd⟩
  · rw [hm]
    omega
  · intro hpos
    rw [ha, hm]
    rw [hm] at hpos
    unfold statsAvg
    rw [if_pos hpos]
  · intro h0
    rw [ha]
    rw [hm] at h0
    unfold statsAvg
    rw [if_neg (by omega), round2q_zero]

/-- Claim C8 witness: two coordinate-valid points give one movement; with the stub
distance 0 the average is 0. -/
theorem stats_movements_and_average_witness :
    generate_travel_statistics hav0 [pA, pC] = .ok stR ∧
    ((stR.total_movements : ℤ) =
      max 0 (((statsValidPoints [pA, pC]).length : ℤ) - 1) ∧
     (0 < stR.total_movements →
       stR.average_movement_km =
         round2q (statsTotalDistance hav0 [pA, pC] /
           (stR.total_movements : ℚ))) ∧
     (stR.total_movements = 0 → stR.average_movement_km = 0) ∧
     stR.total_distance_km = round2q (statsTotalDistance hav0 [pA, pC])) :=
  have h : generate_travel_statistics hav0 [pA, pC] = .ok stR := by
    with_unfolding_all decide
  ⟨h, stats_movements_and_average hav0 [pA, pC] stR h⟩

/-- Claim C10: `calculate_velocity` rounds `distance_km`, `time_diff_hours` and
`speed_kmh` to 2 decimal places before returning, and the 1000 km/h flag
comparison in the timeline loop is made against the rounded speed, so a pair
whose exact speed exceeds 1000 km/h but whose rounded speed is at most
1000.00 is not flagged. -/
theorem rounding_gates_velocity_flag (gd : Dist) (parse : ParseFn)
    (prev cur : Point) (la1 lo1 la2 lo2 : ℚ) (t1 t2 : DT)
    (h1 : prev.latitude = some la1) (h2 : prev.longitude = some lo1)
    (h3 : cur.latitude = some la2) (h4 : cur.longitude = some lo2)
    (h5 : prev.datetime.bind parse = some t1)
    (h6 : cur.datetime.bind parse = some t2)
    (D T : ℚ) (hD : D = gd (la1, lo1) (la2, lo2))
    (hT : T = absq (t2.stamp - t1.stamp) / 3600) :
    calculate_velocity gd parse prev cur =
      some ⟨round2q D, round2q T, RFloat.round2 (speedOf D T)⟩ ∧
    (T ≠ 0 → 1000 < D / T → round2q (D / T) ≤ 1000 →
      (timelineStep gd parse (some prev) cur).flagged = false) := by
  subst hD
  subst hT
  have hv := velocity_eq gd parse prev cur la1 lo1 la2 lo2 t1 t2
    h1 h2 h3 h4 h5 h6
  refine ⟨hv, ?_⟩
  intro hT0 hgt hle
  simp only [timelineStep]
  rw [hv]
  simp only [speedOf, if_neg hT0, RFloat.round2]
  have hflag : RFloat.gtQ
      (RFloat.fin (round2q (gd (la1, lo1) (la2, lo2) /
        (absq (t2.stamp - t1.stamp) / 3600)))) 1000 = false := by
    simp only [RFloat.gtQ]
    exact decide_eq_false (not_lt.mpr hle)
  simp [hflag]

/-- Claim C10 witness: a 1000.001 km jump in exactly one hour has exact speed
1000.001 km/h, above the threshold, but its rounded speed is 1000.00 and the
entry is not flagged. -/
theorem rounding_gates_velocity_flag_witness :
    (absq ((⟨3600, 1⟩ : DT).stamp - (⟨0, 0⟩ : DT).stamp) / 3600 ≠ 0 ∧
     1000 < gdB (10, 10) (10, 11) /
       (absq ((⟨3600, 1⟩ : DT).stamp - (⟨0, 0⟩ : DT).stamp) / 3600) ∧
     round2q (gdB (10, 10) (10, 11) /
       (absq ((⟨3600, 1⟩ : DT).stamp - (⟨0, 0⟩ : DT).stamp) / 3600)) ≤ 1000) ∧
    (timelineStep gdB parse0 (some pA) pB).flagged = false :=
  have hn : absq ((⟨3600, 1⟩ : DT).stamp - (⟨0, 0⟩ : DT).stamp) / 3600 ≠ 0 := by
    with_unfolding_all decide
  have hg : 1000 < gdB (10, 10) (10, 11) /
      (absq ((⟨3600, 1⟩ : DT).stamp - (⟨0, 0⟩ : DT).stamp) / 3600) := by
    with_unfolding_all decide
  have hl : round2q (gdB (10, 10) (10, 11) /
      (absq ((⟨3600, 1⟩ : DT).stamp - (⟨0, 0⟩ : DT).stamp) / 3600)) ≤ 1000 := by
    with_unfolding_all decide
  ⟨⟨hn, hg, hl⟩,
   (rounding_gates_velocity_flag gdB parse0 pA pB 10 10 10 11 ⟨0, 0⟩ ⟨3600, 1⟩
      rfl rfl rfl rfl rfl rfl _ _ rfl rfl).2 hn hg hl⟩

end GeoMeta


